import Mathlib

/-!
# Auto-Builder server: shallow embedding

This file embeds the Auto-Builder Express server (`src/server.js`, with a
near-identical copy in `src/unnamed/part_000`) in Lean 4 and proves
properties of its request validation, secret verification, artifact
generation, repository-name derivation, job pipeline and callback
notifier.

External effects (filesystem writes, the generation backend call,
`JSON.parse`, the repository host, HTTP responses to the callback URL,
`Date.now()`) are modelled as explicit parameters describing their
outcomes; the control flow around them is translated directly from the
JavaScript source.
-/

namespace AutoBuilder

/-! ## JavaScript value helpers

JavaScript truthiness for the value shapes the server manipulates:
strings are falsy exactly when empty or `undefined`, numbers are falsy
exactly when `0` (or `undefined`).  `Option` models presence/absence of
a field (`none` = `undefined`). -/

/-- Truthiness of a possibly-absent JS string (`undefined` and `""` are falsy). -/
def truthyStr : Option String → Bool
  | none => false
  | some s => s ≠ ""

/-- Truthiness of a possibly-absent JS number (`undefined` and `0` are falsy). -/
def truthyNum : Option Int → Bool
  | none => false
  | some n => n ≠ 0

/-- JS `a || b` on strings: yields `b` when `a` is falsy (empty). -/
def jsOrStr (a b : String) : String :=
  if a = "" then b else a

/-! ## Data model -/

/-- One inbound attachment descriptor: `{ name, url }`, either possibly absent. -/
structure Attachment where
  name : Option String
  url : Option String
deriving Repr, DecidableEq

/-- The parsed JSON request body of `POST /api-endpoint`.
Fields the server destructures; each may be absent (`undefined`). -/
structure TaskRequest where
  email : Option String
  secret : Option String
  task : Option String
  round : Option Int
  nonce : Option String
  brief : Option String
  evaluation_url : Option String
  attachments : List Attachment
deriving Repr, DecidableEq

/-- One generated file `{ path, content }`. -/
structure GenFile where
  path : String
  content : String
deriving Repr, DecidableEq

/-- The object `generateFilesWithLLM` returns (or that `JSON.parse` yields):
`{ files, readme }`, where either property may be absent on a parsed
backend response. -/
structure Generated where
  files : Option (List GenFile)
  readme : Option String
deriving Repr, DecidableEq

/-- Result of `createGithubRepoAndPush`: `{ repo_url, commit_sha }`. -/
structure PublishResult where
  repo_url : String
  commit_sha : String
deriving Repr, DecidableEq

/-- The callback payload `notifyBody` posted to `evaluation_url`.
`deploy_url` is `Option String` so that the JS `null` is `none`. -/
structure NotifyBody where
  email : String
  task : String
  round : Int
  nonce : String
  repo_url : String
  commit_sha : String
  deploy_url : Option String
deriving Repr, DecidableEq

/-! ## Secret verification (`verifySecret`, server.js lines 98-101)

The in-memory `studentSecrets` map is modelled as an association list;
`DEFAULT_SECRET = process.env.DEFAULT_SECRET || 'demo-secret'`. -/

/-- `DEFAULT_SECRET`: the environment variable when truthy, else `'demo-secret'`. -/
def DEFAULT_SECRET (env : Option String) : String :=
  jsOrStr (env.getD "") "demo-secret"

/-- The `studentSecrets` map as initialized at startup:
`studentSecrets.set('student@example.com', DEFAULT_SECRET)`. -/
def startupStore (env : Option String) : List (String × String) :=
  [("student@example.com", DEFAULT_SECRET env)]

/-- `const expected = studentSecrets.get(email) || DEFAULT_SECRET`.
A stored empty string is falsy in JS, hence also falls back. -/
def expectedSecret (store : List (String × String)) (dflt : String)
    (email : String) : String :=
  match store.lookup email with
  | some s => jsOrStr s dflt
  | none => dflt

/-- `verifySecret(email, secret)`: `secret === expected`.  The supplied
secret may be absent (`undefined`), in which case the strict equality
with a string is false. -/
def verifySecret (store : List (String × String)) (dflt : String)
    (email : String) (secret : Option String) : Bool :=
  secret = some (expectedSecret store dflt email)

/-! ## Attachment materialization (`writeAttachments`, lines 103-115)

`parser.parse` + `fs.writeFile` for one attachment are modelled by an
effect function `fsWrite : name → url → Except Unit Unit`; a thrown
error (`Except.error`) aborts the whole loop, as `await` rethrows inside
the caller's `try`. Attachments whose `name` or `url` is falsy are
skipped (`continue`). -/

def writeAttachments (fsWrite : String → String → Except Unit Unit) :
    List Attachment → Except Unit (List String)
  | [] => .ok []
  | att :: rest =>
    if truthyStr att.name ∧ truthyStr att.url then
      match fsWrite (att.name.getD "") (att.url.getD "") with
      | .error e => .error e
      | .ok _ =>
        match writeAttachments fsWrite rest with
        | .error e => .error e
        | .ok written => .ok ((att.name.getD "") :: written)
    else
      writeAttachments fsWrite rest

/-! ## Artifact generation (`generateFilesWithLLM`, lines 117-147)

The OpenAI call is an external effect whose outcome is a parameter:
either the call itself rejects (`call_error`), or it yields a response
text. `JSON.parse` is the runtime's parser, modelled as an opaque
`parseJson : String → Option Generated` (`none` = parse throws).

The try/catch in the source wraps *only* `JSON.parse(text)`; an error
thrown by the backend call itself is not caught and propagates out of
the function, which the `Except` result records. -/

/-- Outcome of `openai.chat.completions.create` followed by
`resp.choices[0].message.content`. -/
inductive BackendOutcome where
  | call_error
  | response (text : String)
deriving Repr, DecidableEq

/-- The mock artifact set returned when no API key is configured.
`nowIso` stands for `new Date().toISOString()` interpolated into the
page's script (a string literal in the source, kept verbatim here). -/
def mockNoBackend (brief : String) : Generated :=
  { files := some [⟨"index.html",
      "<!doctype html>\n<html><head><meta charset=\"utf-8\"><title>Auto App</title></head><body><h1>Auto-generated app</h1><p>" ++ brief ++ "</p><div id=\"output\"></div><script>document.getElementById('output').textContent = 'Generated at ' + new Date().toISOString();</script></body></html>"⟩],
    readme := some ("# Auto-generated app\n\nBrief: " ++ brief) }

/-- The fallback artifact set returned when the backend response fails
to parse as JSON. -/
def parseFailFallback : Generated :=
  { files := some [⟨"index.html",
      "<!doctype html><html><body><h1>Generated app</h1><p>Failed to parse LLM output. See server logs.</p></body></html>"⟩],
    readme := some "# Auto app\n\n(LLM output parse failed)" }

/-- `generateFilesWithLLM(brief, attachments)`.  `openaiConfigured`
models `openai !== null` (an API key was provided). -/
def generateFilesWithLLM (openaiConfigured : Bool) (backend : BackendOutcome)
    (parseJson : String → Option Generated) (brief : String) :
    Except Unit Generated :=
  if openaiConfigured = false then
    .ok (mockNoBackend brief)
  else
    match backend with
    | .call_error => .error ()
    | .response text =>
      match parseJson text with
      | some parsed => .ok parsed
      | none => .ok parseFailFallback

/-! ## Repository name derivation (`shortName`, lines 149-151, and
`repoName`, line 221) -/

/-- A character matched by the char class `[a-z0-9-]` with the `i` flag,
i.e. kept (not replaced) by the regex: codepoints of `a`-`z` (97-122),
`A`-`Z` (65-90), `0`-`9` (48-57) and `-` (45). -/
def keepChar (c : Char) : Bool :=
  (97 ≤ c.toNat ∧ c.toNat ≤ 122) ∨ (65 ≤ c.toNat ∧ c.toNat ≤ 90)
    ∨ (48 ≤ c.toNat ∧ c.toNat ≤ 57) ∨ c.toNat = 45

/-- `.replace(/[^a-z0-9-]/gi, '-')`: the pattern is a single character
class, so the global replace is a per-character map. -/
def replaceNonSlug (c : Char) : Char :=
  if keepChar c then c else '-'

/-- `.toLowerCase()` on the characters this pipeline produces (all
ASCII, since `replaceNonSlug` already ran): `A`-`Z` (codepoints 65-90)
map down by 32, all else is fixed. -/
def jsToLower (c : Char) : Char :=
  if 65 ≤ c.toNat ∧ c.toNat ≤ 90 then Char.ofNat (c.toNat + 32) else c

/-- `shortName(task)`:
`(task || 'task').replace(/[^a-z0-9-]/gi, '-').toLowerCase().slice(0, 40)`. -/
def shortName (task : String) : String :=
  String.mk ((((jsOrStr task "task").data.map replaceNonSlug).map jsToLower).take 40)

/-- One base-36 digit as produced by `Number.prototype.toString(36)`:
`0`-`9` then lowercase `a`-`z`. -/
def base36digit (n : Nat) : Char :=
  if n < 10 then Char.ofNat (48 + n) else Char.ofNat (87 + n)

/-- `n.toString(36)` digit list (most significant first). -/
def natToBase36 (n : Nat) : List Char :=
  if h : n < 36 then [base36digit n]
  else
    have : n / 36 < n := Nat.div_lt_self (Nat.lt_of_lt_of_le (by norm_num) (Nat.le_of_not_lt h)) (by norm_num)
    natToBase36 (n / 36) ++ [base36digit (n % 36)]
termination_by n

/-- JS `.slice(-6)` on a char list: the last six characters (the whole
list when shorter). -/
def sliceLast6 (s : List Char) : List Char :=
  s.drop (s.length - 6)

/-- `Date.now().toString(36).slice(-6)`. -/
def timestampFragment (ts : Nat) : String :=
  String.mk (sliceLast6 (natToBase36 ts))

/-- `` `${shortName(task)}-${Date.now().toString(36).slice(-6)}` ``. -/
def repoName (task : String) (ts : Nat) : String :=
  shortName task ++ "-" ++ timestampFragment ts

/-! ## Callback notifier (`notifyEvaluationUrl`, lines 188-201)

Each attempt's HTTP outcome is given by `outcomes : Nat → AttemptOutcome`
(attempt index ↦ what `axios.post` did).  The loop body posts, treats a
2xx status as success and returns at once; otherwise (non-2xx or a
thrown transport error) it sleeps `delay` ms and doubles `delay`.  After
`maxRetries` failed attempts it throws.  The trace records every posted
body, every sleep, and whether the function returned or threw. -/

/-- What one `axios.post` call did: resolved with a status, or threw. -/
inductive AttemptOutcome where
  | status (code : Nat)
  | transportError
deriving Repr, DecidableEq

/-- Did this attempt count as success (`resp.status >= 200 && resp.status < 300`)?
A thrown transport error is caught and is not success. -/
def attemptOk : AttemptOutcome → Bool
  | .status c => 200 ≤ c ∧ c < 300
  | .transportError => false

/-- Execution trace of one `notifyEvaluationUrl` call. -/
structure NotifyTrace where
  posts : List NotifyBody
  sleeps : List Nat
  result : Except Unit Unit
deriving Repr

/-- The `for (let i = 0; i < maxRetries; i++)` loop, by remaining
iteration count.  `i` is the current attempt index, `delay` the current
backoff in ms. -/
def notifyLoop (outcomes : Nat → AttemptOutcome) (body : NotifyBody) :
    Nat → Nat → Nat → NotifyTrace
  | 0, _, _ => { posts := [], sleeps := [], result := .error () }
  | remaining + 1, i, delay =>
    if attemptOk (outcomes i) then
      { posts := [body], sleeps := [], result := .ok () }
    else
      let rest := notifyLoop outcomes body remaining (i + 1) (delay * 2)
      { posts := body :: rest.posts
        sleeps := delay :: rest.sleeps
        result := rest.result }

/-- `notifyEvaluationUrl(evaluation_url, body, maxRetries = 5)` with the
initial `delay = 1000`. -/
def notifyEvaluationUrl (outcomes : Nat → AttemptOutcome) (body : NotifyBody)
    (maxRetries : Nat) : NotifyTrace :=
  notifyLoop outcomes body maxRetries 0 1000

/-! ## The HTTP handler and job pipeline (`app.post('/api-endpoint')`,
lines 203-240) -/

/-- The synchronous HTTP response of the endpoint. -/
inductive Response where
  | badRequest
  | unauthorized
  | accepted
deriving Repr, DecidableEq

/-- Observable side effects of the background job, in order. -/
inductive Event where
  | generated (g : Generated)
  | published (name : String) (files : List GenFile) (readme : String) (r : PublishResult)
  | notifyPost (url : String) (body : NotifyBody)
  | errorLogged
deriving Repr, DecidableEq

/-- Outcomes of all external effects one job encounters. -/
structure Env where
  secretEnv : Option String
  openaiConfigured : Bool
  fsWrite : String → String → Except Unit Unit
  backend : BackendOutcome
  parseJson : String → Option Generated
  publish : Except Unit PublishResult
  notifyOutcomes : Nat → AttemptOutcome
  nowMs : Nat

/-- The `try { ... } catch (err) { console.error('Processing failed') }`
body that runs after the immediate 200 response: materialize
attachments, generate, publish, notify.  Any `Except.error` from an
awaited step jumps to the single catch, producing `errorLogged` and
ending the job. -/
def runPipeline (env : Env) (req : TaskRequest) : List Event :=
  match writeAttachments env.fsWrite req.attachments with
  | .error _ => [.errorLogged]
  | .ok _ =>
    match generateFilesWithLLM env.openaiConfigured env.backend env.parseJson
        (jsOrStr (req.brief.getD "") "Auto app") with
    | .error _ => [.errorLogged]
    | .ok generated =>
      let files := generated.files.getD []
      let readme := jsOrStr (generated.readme.getD "")
        ("# Auto-generated app\n\n" ++ req.brief.getD "")
      let name := repoName (req.task.getD "") env.nowMs
      match env.publish with
      | .error _ => [.generated generated] ++ [.errorLogged]
      | .ok result =>
        let notifyBody : NotifyBody :=
          { email := req.email.getD ""
            task := req.task.getD ""
            round := req.round.getD 0
            nonce := req.nonce.getD ""
            repo_url := result.repo_url
            commit_sha := result.commit_sha
            deploy_url := none }
        let trace := notifyEvaluationUrl env.notifyOutcomes notifyBody 5
        [.generated generated] ++ [.published name files readme result]
          ++ trace.posts.map (.notifyPost (req.evaluation_url.getD ""))
          ++ (match trace.result with
              | .error _ => [.errorLogged]
              | .ok _ => [])

/-- The whole endpoint: required-field check, secret check, then the
immediate `200 accepted` with the pipeline's events as the background
side effects.  `store` is the state of `studentSecrets` (initialized by
`startupStore`, never mutated afterwards). -/
def handle (env : Env) (store : List (String × String)) (req : TaskRequest) :
    Response × List Event :=
  if ¬(truthyStr req.email ∧ truthyStr req.task ∧ truthyNum req.round
      ∧ truthyStr req.nonce ∧ truthyStr req.evaluation_url) then
    (.badRequest, [])
  else if ¬ verifySecret store (DEFAULT_SECRET env.secretEnv)
      (req.email.getD "") req.secret then
    (.unauthorized, [])
  else
    (.accepted, runPipeline env req)

/-! ## Derived notions used by the statements -/

/-- A character in `[a-z0-9-]` (lowercase only): codepoints 97-122,
48-57 or 45. -/
def isSlugChar (c : Char) : Bool :=
  (97 ≤ c.toNat ∧ c.toNat ≤ 122) ∨ (48 ≤ c.toNat ∧ c.toNat ≤ 57) ∨ c.toNat = 45

/-- The slug derivation exactly as the specification words it: every
character outside `[a-z0-9-]` (case-insensitively) replaced by a
hyphen, lowercased, truncated to at most 40 characters. -/
def specSlug (task : String) : String :=
  String.mk (((task.data.map replaceNonSlug).map jsToLower).take 40)

/-- The callback payload the specification demands for a request and a
publish result: echo email/task/round/nonce, carry the publish result
verbatim, `deploy_url` null. -/
def expectedPayload (req : TaskRequest) (pr : PublishResult) : NotifyBody :=
  { email := req.email.getD ""
    task := req.task.getD ""
    round := req.round.getD 0
    nonce := req.nonce.getD ""
    repo_url := pr.repo_url
    commit_sha := pr.commit_sha
    deploy_url := none }

/-! ## Sample data for concrete witnesses -/

/-- A concrete callback body. -/
def sampleBody : NotifyBody :=
  { email := "student@example.com", task := "My Task", round := 1, nonce := "n1"
    repo_url := "https://github.com/x/y", commit_sha := "abc", deploy_url := none }

/-- A concrete valid request (matches the end-to-end scenario in the spec). -/
def sampleReq : TaskRequest :=
  { email := some "student@example.com", secret := some "demo-secret"
    task := some "My Task", round := some 1, nonce := some "n1"
    brief := some "todo app", evaluation_url := some "http://test/cb"
    attachments := [] }

/-- A concrete publish result. -/
def samplePublish : PublishResult :=
  { repo_url := "https://github.com/x/y", commit_sha := "abc" }

/-- An environment where every external effect succeeds and no
generation backend is configured. -/
def envAllOk : Env :=
  { secretEnv := none, openaiConfigured := false
    fsWrite := fun _ _ => .ok (), backend := .response ""
    parseJson := fun _ => none, publish := .ok samplePublish
    notifyOutcomes := fun _ => .status 200, nowMs := 1700000000000 }

/-- Like `envAllOk` but the repository publish fails. -/
def envPublishFail : Env :=
  { envAllOk with publish := .error () }

/-- Like `envAllOk` but a generation backend is configured and its call
itself throws. -/
def envBackendCallErr : Env :=
  { envAllOk with openaiConfigured := true, backend := .call_error }

/-- Like `envAllOk` but writing an attachment to disk throws. -/
def envMatFail : Env :=
  { envAllOk with fsWrite := fun _ _ => .error () }

/-- `sampleReq` with one well-formed attachment. -/
def sampleReqAtt : TaskRequest :=
  { sampleReq with attachments := [⟨some "a.txt", some "data:text/plain;base64,aGk="⟩] }

/-! ## Helper lemmas -/

/-- Every body the notifier loop posts is the body it was given. -/
theorem notifyLoop_posts_eq (outcomes : Nat → AttemptOutcome) (body : NotifyBody) :
    ∀ r i d b, b ∈ (notifyLoop outcomes body r i d).posts → b = body := by
  intro r
  induction r with
  | zero => intro i d b hb; simp [notifyLoop] at hb
  | succ n ih =>
    intro i d b hb
    by_cases h : attemptOk (outcomes i) = true
    · simp [notifyLoop, h] at hb; exact hb
    · simp only [notifyLoop, h, if_neg, Bool.false_eq_true, not_false_eq_true,
        if_false, List.mem_cons] at hb
      rcases hb with hb | hb
      · exact hb
      · exact ih _ _ b hb

/-- `Char.ofNat` of a small scalar value round-trips through `toNat`. -/
theorem toNat_charOfNat (n : Nat) (h : n < 55296) : (Char.ofNat n).toNat = n := by
  rw [Char.ofNat, dif_pos (Or.inl h)]
  rfl

/-- The character produced for each slug position is in `[a-z0-9-]`. -/
theorem isSlugChar_lower_replace (c : Char) :
    isSlugChar (jsToLower (replaceNonSlug c)) = true := by
  unfold replaceNonSlug
  by_cases hk : keepChar c = true
  · rw [if_pos hk]
    unfold keepChar at hk
    simp only [decide_eq_true_eq] at hk
    unfold jsToLower isSlugChar
    rcases hk with h | h | h | h
    · rw [if_neg (by omega)]; simp only [decide_eq_true_eq]; omega
    · rw [if_pos (by omega)]
      have ht : (Char.ofNat (c.toNat + 32)).toNat = c.toNat + 32 :=
        toNat_charOfNat _ (by omega)
      simp only [decide_eq_true_eq, ht]
      omega
    · rw [if_neg (by omega)]; simp only [decide_eq_true_eq]; omega
    · rw [if_neg (by omega)]; simp only [decide_eq_true_eq]; omega
  · rw [if_neg hk]
    decide

/-- Each digit `toString(36)` emits is in `[a-z0-9-]`. -/
theorem isSlugChar_base36digit (m : Nat) (hm : m < 36) :
    isSlugChar (base36digit m) = true := by
  unfold base36digit isSlugChar
  by_cases h : m < 10
  · rw [if_pos h]
    have ht : (Char.ofNat (48 + m)).toNat = 48 + m := toNat_charOfNat _ (by omega)
    simp only [decide_eq_true_eq, ht]
    omega
  · rw [if_neg h]
    have ht : (Char.ofNat (87 + m)).toNat = 87 + m := toNat_charOfNat _ (by omega)
    simp only [decide_eq_true_eq, ht]
    omega

/-- Every character of a base-36 rendering is in `[a-z0-9-]`. -/
theorem isSlugChar_natToBase36 (n : Nat) :
    ∀ c ∈ natToBase36 n, isSlugChar c = true := by
  induction n using Nat.strong_induction_on with
  | _ n ih =>
    rw [natToBase36]
    split
    · next h =>
      intro c hc
      simp only [List.mem_singleton] at hc
      subst hc
      exact isSlugChar_base36digit n h
    · next h =>
      intro c hc
      rw [List.mem_append] at hc
      rcases hc with hc | hc
      · exact ih (n / 36) (Nat.div_lt_self (by omega) (by norm_num)) c hc
      · simp only [List.mem_singleton] at hc
        subst hc
        exact isSlugChar_base36digit (n % 36) (Nat.mod_lt _ (by norm_num))

/-- `toString(36)` of a number at least `36^k` has more than `k` digits. -/
theorem natToBase36_length (k : Nat) :
    ∀ n, 36 ^ k ≤ n → k + 1 ≤ (natToBase36 n).length := by
  induction k with
  | zero =>
    intro n _
    rw [natToBase36]
    split
    · simp
    · simp
  | succ k ih =>
    intro n hn
    have h36 : ¬ n < 36 := by
      have h1 : 36 ≤ 36 ^ (k + 1) := by
        calc 36 = 36 ^ 1 := by norm_num
        _ ≤ 36 ^ (k + 1) := Nat.pow_le_pow_right (by norm_num) (by omega)
      omega
    rw [natToBase36, dif_neg h36]
    rw [List.length_append]
    have hdiv : 36 ^ k ≤ n / 36 := by
      rw [Nat.le_div_iff_mul_le (by norm_num)]
      calc 36 ^ k * 36 = 36 ^ (k + 1) := by rw [pow_succ]
      _ ≤ n := hn
    have := ih (n / 36) hdiv
    simp only [List.length_singleton]
    omega

/-- `verifySecret` succeeds exactly on the expected secret. -/
theorem verifySecret_iff (store : List (String × String)) (dflt email : String)
    (secret : Option String) :
    verifySecret store dflt email secret = true ↔
      secret = some (expectedSecret store dflt email) := by
  simp [verifySecret]

/-! ## Claims -/

/-- C1: if every delivery attempt fails, the Callback Notifier makes
exactly 5 attempts, with delays of 1s, 2s, 4s, 8s between consecutive
attempts, and then signals delivery failure (throws); if the first
attempt succeeds it makes exactly 1 attempt and returns with no delay.
The sleeps list records every `setTimeout`; the delays between the 5
consecutive attempts are its first four entries. -/
theorem notifier_retry_policy (outcomes : Nat → AttemptOutcome) (body : NotifyBody) :
    ((∀ i, attemptOk (outcomes i) = false) →
      (notifyEvaluationUrl outcomes body 5).posts.length = 5 ∧
      (notifyEvaluationUrl outcomes body 5).sleeps.take 4 = [1000, 2000, 4000, 8000] ∧
      (notifyEvaluationUrl outcomes body 5).result = Except.error ()) ∧
    (attemptOk (outcomes 0) = true →
      (notifyEvaluationUrl outcomes body 5).posts.length = 1 ∧
      (notifyEvaluationUrl outcomes body 5).sleeps = [] ∧
      (notifyEvaluationUrl outcomes body 5).result = Except.ok ()) := by
  constructor
  · intro hfail
    refine ⟨?_, ?_, ?_⟩ <;> simp [notifyEvaluationUrl, notifyLoop, hfail]
  · intro hok
    refine ⟨?_, ?_, ?_⟩ <;> simp [notifyEvaluationUrl, notifyLoop, hok]

/-- Witness for C1 at concrete outcome sequences: a target that always
throws a transport error, and a target that answers 200 at once. -/
theorem notifier_retry_policy_witness :
    ((notifyEvaluationUrl (fun _ => AttemptOutcome.transportError) sampleBody 5).posts.length = 5 ∧
     (notifyEvaluationUrl (fun _ => AttemptOutcome.transportError) sampleBody 5).sleeps.take 4
        = [1000, 2000, 4000, 8000] ∧
     (notifyEvaluationUrl (fun _ => AttemptOutcome.transportError) sampleBody 5).result
        = Except.error ()) ∧
    ((notifyEvaluationUrl (fun _ => AttemptOutcome.status 200) sampleBody 5).posts.length = 1 ∧
     (notifyEvaluationUrl (fun _ => AttemptOutcome.status 200) sampleBody 5).sleeps = [] ∧
     (notifyEvaluationUrl (fun _ => AttemptOutcome.status 200) sampleBody 5).result
        = Except.ok ()) :=
  ⟨(notifier_retry_policy _ sampleBody).1 (fun _ => rfl),
   (notifier_retry_policy _ sampleBody).2 (by decide)⟩

/-- C4: a request body missing any of email, task, round, nonce,
evaluation_url is rejected with 400 and no pipeline side effect occurs. -/
theorem missing_fields_reject (env : Env) (store : List (String × String))
    (req : TaskRequest)
    (h : req.email = none ∨ req.task = none ∨ req.round = none
      ∨ req.nonce = none ∨ req.evaluation_url = none) :
    handle env store req = (Response.badRequest, []) := by
  rcases h with h | h | h | h | h <;> simp [handle, h, truthyStr, truthyNum]

/-- Witness for C4: a concrete request without a nonce is rejected with
400 and an empty event trace. -/
theorem missing_fields_reject_witness :
    handle envAllOk (startupStore none) { sampleReq with nonce := none }
      = (Response.badRequest, []) :=
  missing_fields_reject envAllOk (startupStore none) _
    (Or.inr (Or.inr (Or.inr (Or.inl rfl))))

/-- C10: a required field that is present but falsy (round 0, or an
empty-string field) is treated as missing: 400 and no pipeline. -/
theorem falsy_fields_reject (env : Env) (store : List (String × String))
    (req : TaskRequest)
    (h : req.email = some "" ∨ req.task = some "" ∨ req.round = some 0
      ∨ req.nonce = some "" ∨ req.evaluation_url = some "") :
    handle env store req = (Response.badRequest, []) := by
  rcases h with h | h | h | h | h <;> simp [handle, h, truthyStr, truthyNum]

/-- Witness for C10: `round = 0` (present but falsy) yields the 400
missing-fields response with no events. -/
theorem falsy_fields_reject_witness :
    handle envAllOk (startupStore none) { sampleReq with round := some 0 }
      = (Response.badRequest, []) :=
  falsy_fields_reject envAllOk (startupStore none) _
    (Or.inr (Or.inr (Or.inl rfl)))

/-- C5: with all required fields present, a wrong secret for a known
email, or any secret other than the fallback for an unknown email, is
rejected with 401 and no pipeline; a secret equal to the expected value
is accepted. -/
theorem secret_check (env : Env) (store : List (String × String)) (req : TaskRequest)
    (hfields : truthyStr req.email = true ∧ truthyStr req.task = true
      ∧ truthyNum req.round = true ∧ truthyStr req.nonce = true
      ∧ truthyStr req.evaluation_url = true) :
    (∀ s, store.lookup (req.email.getD "") = some s → s ≠ "" →
        req.secret ≠ some s → handle env store req = (Response.unauthorized, [])) ∧
    (store.lookup (req.email.getD "") = none →
        req.secret ≠ some (DEFAULT_SECRET env.secretEnv) →
        handle env store req = (Response.unauthorized, [])) ∧
    (req.secret = some (expectedSecret store (DEFAULT_SECRET env.secretEnv)
        (req.email.getD "")) →
      (handle env store req).1 = Response.accepted) := by
  have hcond := not_not_intro hfields
  refine ⟨?_, ?_, ?_⟩
  · intro s hs hne hsec
    unfold handle
    rw [if_neg hcond, if_pos]
    rw [verifySecret_iff]
    unfold expectedSecret
    rw [hs]
    simpa [jsOrStr, hne] using hsec
  · intro hs hsec
    unfold handle
    rw [if_neg hcond, if_pos]
    rw [verifySecret_iff]
    unfold expectedSecret
    rw [hs]
    exact hsec
  · intro hsec
    unfold handle
    rw [if_neg hcond, if_neg]
    rw [not_not, verifySecret_iff]
    exact hsec

/-- Witness for C5: against the startup store, a wrong secret for the
known email and for an unknown email are both 401 with no events, and
the expected secret is accepted. -/
theorem secret_check_witness :
    handle envAllOk (startupStore none) { sampleReq with secret := some "wrong" }
      = (Response.unauthorized, []) ∧
    handle envAllOk (startupStore none)
        { sampleReq with email := some "other@example.org", secret := some "bad" }
      = (Response.unauthorized, []) ∧
    (handle envAllOk (startupStore none) sampleReq).1 = Response.accepted :=
  ⟨(secret_check envAllOk (startupStore none) _ (by decide)).1 "demo-secret"
      rfl (by decide) (by decide),
   (secret_check envAllOk (startupStore none) _ (by decide)).2.1 rfl (by decide),
   (secret_check envAllOk (startupStore none) sampleReq (by decide)).2.2 (by decide)⟩

/-- C6: when the Repository Publisher fails, the job ends with the
failure logged and the Callback Notifier is never invoked: no
notification post occurs in the job's side effects. -/
theorem publish_failure_no_notify (env : Env) (store : List (String × String))
    (req : TaskRequest) (h : env.publish = Except.error ()) :
    ∀ url b, Event.notifyPost url b ∉ (handle env store req).2 := by
  intro url b
  unfold handle runPipeline
  rw [h]
  split
  · simp
  · split
    · simp
    · cases hw : writeAttachments env.fsWrite req.attachments with
      | error e => simp
      | ok w =>
        cases hg : generateFilesWithLLM env.openaiConfigured env.backend env.parseJson
            (jsOrStr (req.brief.getD "") "Auto app") with
        | error e => simp
        | ok g => simp

/-- Witness for C6: a concrete valid request against an environment
whose publish step fails produces no notification post. -/
theorem publish_failure_no_notify_witness :
    Event.notifyPost "http://test/cb" sampleBody
      ∉ (handle envPublishFail (startupStore none) sampleReq).2 :=
  publish_failure_no_notify envPublishFail (startupStore none) sampleReq rfl
    "http://test/cb" sampleBody

/-- C9: every notification post a job performs carries the payload
built once from the request's email, task, round and nonce and the
publish result's repo_url and commit_sha, with deploy_url null —
retries never send a mutated payload. -/
theorem payload_fixed (env : Env) (store : List (String × String))
    (req : TaskRequest) (pr : PublishResult) (hpub : env.publish = Except.ok pr) :
    ∀ url b, Event.notifyPost url b ∈ (handle env store req).2 →
      b = expectedPayload req pr := by
  intro url b hb
  unfold handle runPipeline at hb
  rw [hpub] at hb
  split at hb
  · simp at hb
  · split at hb
    · simp at hb
    · revert hb
      cases hw : writeAttachments env.fsWrite req.attachments with
      | error e => intro hb; simp at hb
      | ok w =>
        cases hg : generateFilesWithLLM env.openaiConfigured env.backend env.parseJson
            (jsOrStr (req.brief.getD "") "Auto app") with
        | error e => intro hb; simp at hb
        | ok g =>
          intro hb
          simp only [List.append_assoc, List.mem_append, List.mem_singleton,
            List.mem_map] at hb
          rcases hb with hb | hb | ⟨a, ha, hab⟩ | hb
          · exact absurd hb (by simp)
          · exact absurd hb (by simp)
          · have ha' := notifyLoop_posts_eq env.notifyOutcomes _ 5 0 1000 a ha
            cases hab
            rw [ha']
            rfl
          · revert hb
            split
            · intro hb
              simp at hb
            · intro hb
              simp at hb

/-- Witness for C9: in a fully successful concrete job, the posted
payload equals the expected payload of the request and publish result. -/
theorem payload_fixed_witness : sampleBody = expectedPayload sampleReq samplePublish :=
  payload_fixed envAllOk (startupStore none) sampleReq samplePublish rfl
    "http://test/cb" sampleBody (by decide)

/-- Every character of a derived slug is in `[a-z0-9-]`. -/
theorem shortName_chars (task : String) :
    ∀ c ∈ (shortName task).data, isSlugChar c = true := by
  intro c hc
  have hdata : (shortName task).data
      = (((jsOrStr task "task").data.map replaceNonSlug).map jsToLower).take 40 := rfl
  rw [hdata] at hc
  have hc' := List.mem_of_mem_take hc
  rcases List.mem_map.mp hc' with ⟨a, ha, rfl⟩
  rcases List.mem_map.mp ha with ⟨b, _, rfl⟩
  exact isSlugChar_lower_replace _

/-- Every character of a timestamp fragment is in `[a-z0-9-]`. -/
theorem timestampFragment_chars (ts : Nat) :
    ∀ c ∈ (timestampFragment ts).data, isSlugChar c = true := by
  intro c hc
  have hdata : (timestampFragment ts).data = sliceLast6 (natToBase36 ts) := rfl
  rw [hdata, sliceLast6] at hc
  exact isSlugChar_natToBase36 ts c (List.mem_of_mem_drop hc)

/-- The spec's worked example for the slug. -/
theorem shortName_example : shortName "Hello, World! 2024" = "hello--world--2024" := by
  decide

/-- The fragment of a timestamp at least `36^5` has exactly 6 characters. -/
theorem timestampFragment_length (ts : Nat) (hts : 36 ^ 5 ≤ ts) :
    (timestampFragment ts).length = 6 := by
  have hlen : 6 ≤ (natToBase36 ts).length := natToBase36_length 5 ts hts
  simp only [timestampFragment, sliceLast6, String.length]
  rw [List.length_drop]
  omega

/-- C7: the derived repository name is the task name with every
character outside `[a-z0-9-]` (case-insensitively) replaced by a
hyphen, lowercased, truncated to at most 40 characters, suffixed with a
hyphen and a 6-character base-36 timestamp fragment; it contains only
`[a-z0-9-]`; and `"Hello, World! 2024"` slugs to
`"hello--world--2024"`.  The timestamp hypothesis `36^5 ≤ ts` holds for
every real `Date.now()` value (milliseconds since 1970). -/
theorem repo_name_derivation (task : String) (ts : Nat)
    (htask : task ≠ "") (hts : 36 ^ 5 ≤ ts) :
    shortName task = specSlug task ∧
    (shortName task).length ≤ 40 ∧
    (timestampFragment ts).length = 6 ∧
    repoName task ts = shortName task ++ "-" ++ timestampFragment ts ∧
    (∀ c ∈ (repoName task ts).data, isSlugChar c = true) ∧
    shortName "Hello, World! 2024" = "hello--world--2024" := by
  refine ⟨?_, ?_, timestampFragment_length ts hts, rfl, ?_, shortName_example⟩
  · unfold shortName specSlug jsOrStr
    rw [if_neg htask]
  · simp only [shortName, String.length]
    rw [List.length_take]
    omega
  · intro c hc
    simp only [repoName, String.data_append] at hc
    rcases List.mem_append.mp hc with hc | hc
    · rcases List.mem_append.mp hc with hc | hc
      · exact shortName_chars task c hc
      · have : c = '-' := by simpa using hc
        subst this
        decide
    · exact timestampFragment_chars ts c hc

/-- Witness for C7 at the task name from the spec and a realistic
timestamp. -/
theorem repo_name_derivation_witness :
    shortName "Hello, World! 2024" = specSlug "Hello, World! 2024" ∧
    (shortName "Hello, World! 2024").length ≤ 40 ∧
    (timestampFragment 1700000000000).length = 6 ∧
    repoName "Hello, World! 2024" 1700000000000
      = shortName "Hello, World! 2024" ++ "-" ++ timestampFragment 1700000000000 ∧
    (∀ c ∈ (repoName "Hello, World! 2024" 1700000000000).data, isSlugChar c = true) ∧
    shortName "Hello, World! 2024" = "hello--world--2024" :=
  repo_name_derivation "Hello, World! 2024" 1700000000000 (by decide) (by norm_num)

/-- Readme texts of the two generator fallbacks differ for every brief:
they disagree at character index 6 (`' '` vs `'-'`). -/
theorem parseFail_readme_ne (brief : String) :
    parseFailFallback.readme ≠ (mockNoBackend brief).readme := by
  unfold parseFailFallback mockNoBackend
  intro h
  simp only [Option.some.injEq] at h
  have h2 := congrArg String.data h
  rw [String.data_append] at h2
  have h3 := congrArg (fun l => l[6]?) h2
  simp only at h3
  rw [List.getElem?_append_left (by decide)] at h3
  revert h3
  decide

/-- C8: with no backend configured the Generator returns exactly one
file and a readme containing the literal brief; with a backend whose
response fails to parse it returns the parse-failure fallback, whose
readme differs from the no-backend readme. -/
theorem generator_fallbacks (brief text : String) (backend : BackendOutcome)
    (parseJson : String → Option Generated) :
    (generateFilesWithLLM false backend parseJson brief
        = Except.ok (mockNoBackend brief)) ∧
    (∃ f, (mockNoBackend brief).files = some [f]) ∧
    (∃ r, (mockNoBackend brief).readme = some r ∧ brief.data <:+ r.data) ∧
    (parseJson text = none →
      generateFilesWithLLM true (BackendOutcome.response text) parseJson brief
        = Except.ok parseFailFallback ∧
      parseFailFallback.readme ≠ (mockNoBackend brief).readme) := by
  refine ⟨rfl, ⟨_, rfl⟩, ⟨_, rfl, ?_⟩, ?_⟩
  · exact ⟨("# Auto-generated app\n\nBrief: " : String).data,
      (String.data_append _ _).symm⟩
  · intro hparse
    refine ⟨?_, parseFail_readme_ne brief⟩
    unfold generateFilesWithLLM
    simp [hparse]

/-- Witness for C8 at a concrete brief and unparseable backend
response. -/
theorem generator_fallbacks_witness :
    generateFilesWithLLM true (BackendOutcome.response "not json") (fun _ => none)
        "todo app" = Except.ok parseFailFallback ∧
    parseFailFallback.readme ≠ (mockNoBackend "todo app").readme :=
  (generator_fallbacks "todo app" "not json" (BackendOutcome.response "not json")
    (fun _ => none)).2.2.2 rfl

/-- C2 counterexample: with a backend configured whose call itself
throws, the generator raises past its own boundary — the call sits
outside the try/catch, which guards only `JSON.parse` — and the job
ends logged instead of proceeding to repository creation and
notification. -/
theorem generator_raises_counterexample :
    generateFilesWithLLM true BackendOutcome.call_error (fun _ => none) "todo app"
      = Except.error () ∧
    runPipeline envBackendCallErr sampleReq = [Event.errorLogged] :=
  ⟨rfl, rfl⟩

/-- C2 (amended): the Artifact Generator returns a usable artifact set
whenever no backend is configured or the backend call yields a response
(parseable or not); but a failure of the backend call itself propagates
past its boundary as an exception, and the job then ends with the
failure logged, without repository creation or notification. -/
theorem generator_boundary (env : Env) (req : TaskRequest) (brief : String) :
    (env.openaiConfigured = false →
      ∃ g, generateFilesWithLLM env.openaiConfigured env.backend env.parseJson brief
        = Except.ok g) ∧
    (∀ text, env.backend = BackendOutcome.response text →
      ∃ g, generateFilesWithLLM env.openaiConfigured env.backend env.parseJson brief
        = Except.ok g) ∧
    (env.openaiConfigured = true → env.backend = BackendOutcome.call_error →
      generateFilesWithLLM env.openaiConfigured env.backend env.parseJson brief
        = Except.error () ∧
      runPipeline env req = [Event.errorLogged]) := by
  refine ⟨?_, ?_, ?_⟩
  · intro hcfg
    rw [hcfg]
    exact ⟨_, rfl⟩
  · intro text hb
    rw [hb]
    unfold generateFilesWithLLM
    cases env.openaiConfigured
    · exact ⟨mockNoBackend brief, by simp⟩
    · cases parsed : env.parseJson text with
      | none => exact ⟨parseFailFallback, by simp [parsed]⟩
      | some g => exact ⟨g, by simp [parsed]⟩
  · intro hcfg hb
    rw [hcfg, hb]
    refine ⟨rfl, ?_⟩
    unfold runPipeline
    rw [hcfg, hb]
    cases hw : writeAttachments env.fsWrite req.attachments <;>
      simp [generateFilesWithLLM]

/-- Witness for the amended C2: concrete no-backend success and
concrete backend-call failure with the job terminating logged. -/
theorem generator_boundary_witness :
    (∃ g, generateFilesWithLLM envAllOk.openaiConfigured envAllOk.backend
        envAllOk.parseJson "todo app" = Except.ok g) ∧
    (generateFilesWithLLM envBackendCallErr.openaiConfigured envBackendCallErr.backend
        envBackendCallErr.parseJson "todo app" = Except.error () ∧
      runPipeline envBackendCallErr sampleReq = [Event.errorLogged]) :=
  ⟨(generator_boundary envAllOk sampleReq "todo app").1 rfl,
   (generator_boundary envBackendCallErr sampleReq "todo app").2.2 rfl rfl⟩

/-- C3 counterexample: a request with one well-formed attachment, in an
environment whose only failing effect is the attachment write
(generation, publishing and notification would all succeed), yields
only the error log: the job does not proceed to generation, publishing
or notification. -/
theorem materialization_fatal_counterexample :
    writeAttachments envMatFail.fsWrite sampleReqAtt.attachments = Except.error () ∧
    runPipeline envMatFail sampleReqAtt = [Event.errorLogged] :=
  ⟨rfl, rfl⟩

/-- C3 (amended): a failure of attachment materialization is fatal to
the job: the single job-level catch absorbs it, the job ends with only
the error logged, and generation, publishing and notification do not
occur.  Only attachments with a falsy name or url are skipped
non-fatally inside materialization. -/
theorem materialization_failure_terminates (env : Env) (req : TaskRequest)
    (hmat : writeAttachments env.fsWrite req.attachments = Except.error ()) :
    runPipeline env req = [Event.errorLogged] ∧
    (∀ fsW atts, (∀ a ∈ atts, truthyStr a.name = false ∨ truthyStr a.url = false) →
      writeAttachments fsW atts = Except.ok []) := by
  constructor
  · unfold runPipeline
    rw [hmat]
  · intro fsW atts
    induction atts with
    | nil => intro _; rfl
    | cons a rest ih =>
      intro hall
      unfold writeAttachments
      rw [if_neg]
      · exact ih (fun x hx => hall x (List.mem_cons_of_mem a hx))
      · rcases hall a (List.mem_cons_self a rest) with h | h <;> simp [h]

/-- Witness for the amended C3: the concrete failing materialization
ends the job with only the error log, and an attachment lacking a url
is skipped. -/
theorem materialization_failure_terminates_witness :
    runPipeline envMatFail sampleReqAtt = [Event.errorLogged] ∧
    writeAttachments envMatFail.fsWrite [⟨some "a.txt", none⟩] = Except.ok [] :=
  ⟨(materialization_failure_terminates envMatFail sampleReqAtt rfl).1,
   (materialization_failure_terminates envMatFail sampleReqAtt rfl).2
     envMatFail.fsWrite [⟨some "a.txt", none⟩]
     (by intro a ha; simp at ha; rw [ha]; right; rfl)⟩

end AutoBuilder
